import Mathlib

/-!
Shallow embedding of the `dcos_statsd` telegraf input plugin:
the container registry (`DCOSStatsd` in
`plugins/inputs/dcos_statsd/containers/controller.go`), the tagging
accumulator (`containers/accumulator.go`), and the HTTP control-plane
handler (`api/api.go`).

Go maps are embedded as association lists with overwrite-on-insert
semantics; OS-level effects (UDP port probing, statsd server start,
bound-address discovery, file writes and deletes) are embedded as an
explicit environment record consulted at the corresponding program
points, and the set of live statsd servers is tracked as a ledger of
server ids so that provisioning and termination are observable.
-/

namespace DcosStatsd

/-- Lookup in an association list, mirroring Go map indexing. -/
def mapLookup {α : Type} : List (String × α) → String → Option α
  | [], _ => none
  | (k', v) :: rest, k => if k' = k then some v else mapLookup rest k

/-- Insert/overwrite in an association list, mirroring Go map assignment
(`m[k] = v`): the first binding of `k` is replaced, otherwise the pair is
appended. -/
def mapInsert {α : Type} (m : List (String × α)) (k : String) (v : α) :
    List (String × α) :=
  match m with
  | [] => [(k, v)]
  | (k', v') :: rest =>
    if k' = k then (k, v) :: rest else (k', v') :: mapInsert rest k v

/-- Remove a key from an association list, mirroring Go `delete(m, k)`. -/
def mapErase {α : Type} (m : List (String × α)) (k : String) :
    List (String × α) :=
  match m with
  | [] => []
  | (k', v') :: rest =>
    if k' = k then rest else (k', v') :: mapErase rest k

theorem mapLookup_mapInsert_self {α : Type} (m : List (String × α))
    (k : String) (v : α) : mapLookup (mapInsert m k v) k = some v := by
  induction m with
  | nil => simp [mapInsert, mapLookup]
  | cons hd tl ih =>
    by_cases h : hd.1 = k <;> simp [mapInsert, mapLookup, h, ih]

theorem mapLookup_mapInsert_ne {α : Type} (m : List (String × α))
    (k k' : String) (v : α) (hne : k ≠ k') :
    mapLookup (mapInsert m k v) k' = mapLookup m k' := by
  induction m with
  | nil => simp [mapInsert, mapLookup, hne]
  | cons hd tl ih =>
    by_cases h : hd.1 = k
    · simp [mapInsert, mapLookup, h, hne]
    · by_cases h' : hd.1 = k' <;>
        simp [mapInsert, mapLookup, h, h', ih, Ne.symm hne]

/- ### Tagging accumulator (`containers/accumulator.go`) -/

/-- `ctags` from `containers/accumulator.go`: start from the singleton map
`{"container_id": cid}` and then copy every caller-supplied tag over it
(`for k, v := range tags { result[k] = v }`). -/
def ctags (cid : String) (tags : List (String × String)) :
    List (String × String) :=
  tags.foldl (fun m kv => mapInsert m kv.1 kv.2) [("container_id", cid)]

/-- One forwarded `Add*` call as seen by the underlying accumulator. -/
structure FCall where
  measurement : String
  fields : List (String × Int)
  tags : List (String × String)
deriving DecidableEq, Repr

/-- `Accumulator.AddFields`: forward the metric with `ctags` applied to the
caller's tag map. `AddGauge`/`AddCounter`/`AddSummary`/`AddHistogram` are
the same function modulo the metric kind. -/
def accAddFields (cid : String) (measurement : String)
    (fields : List (String × Int)) (tags : List (String × String)) : FCall :=
  ⟨measurement, fields, ctags cid tags⟩

/- ### Data model (`containers.Container`) -/

/-- `containers.Container`. The `Server *statsd.Statsd` pointer is embedded
as an optional server id into the ledger of live servers (`none` = nil). -/
structure Container where
  id : String
  statsdHost : String
  statsdPort : Int
  server : Option Nat
deriving DecidableEq, Repr

/-- The JSON projection of a `Container` per its struct tags:
`container_id`, `statsd_host`, `statsd_port`; the `Server` field carries
`json:"-"` and is not part of the projection. -/
structure PRecord where
  id : String
  statsdHost : String
  statsdPort : Int
deriving DecidableEq, Repr

/-- `json.Marshal` of a `Container`, following the struct tags. -/
def marshalContainer (c : Container) : PRecord :=
  ⟨c.id, c.statsdHost, c.statsdPort⟩

/-- `json.Decode` of a container file into a fresh `containers.Container`:
the `Server` field is excluded from JSON and stays nil. -/
def recToContainer (r : PRecord) : Container :=
  ⟨r.id, r.statsdHost, r.statsdPort, none⟩

/- ### Plugin state -/

/-- The fields of the `DCOSStatsd` struct that the registry operations
touch: configuration plus the containers map. -/
structure DS where
  containersDir : String
  statsdHost : String
  containers : List (String × Container)
deriving DecidableEq, Repr

/-- The whole system state: the plugin struct, the ledger of live statsd
servers (one entry per running listener socket), a fresh-id counter for
newly allocated server structs, and the durable directory contents keyed
by file name. -/
structure Sys where
  ds : DS
  running : List Nat
  nextSid : Nat
  disk : List (String × PRecord)
deriving DecidableEq, Repr

/-- Environment consulted by `AddContainer`: the outcome of the UDP port
probe (`checkPort`), of `Server.Start`, of the bound-address discovery
(`getStatsdServerPort`, `none` = one-second timeout), and of the
container-file write (`ioutil.WriteFile`). -/
structure AddEnv where
  portFree : Int → Bool
  startOk : Bool
  resolved : Option Int
  saveOk : Bool

/-- The distinct error return sites of `AddContainer`. -/
inductive AddErr where
  | portInUse
  | startFailed
  | provisionTimeout
  | persistFailed
deriving DecidableEq, Repr

/-- `DCOSStatsd.AddContainer` (controller.go). Faithful order of effects:
allocate the server struct, probe an explicitly requested port, start the
server, default the host, resolve a dynamic port (with timeout), write the
JSON projection to disk when a containers dir is configured, and only then
insert into the map. Every error site returns without inserting; no error
site stops the just-started server. -/
def addContainer (env : AddEnv) (sys : Sys) (ctr0 : Container) :
    Sys × Except AddErr Container :=
  let sid := sys.nextSid
  let ctr := { ctr0 with server := some sid }
  let sys := { sys with nextSid := sid + 1 }
  if ctr.statsdPort ≠ 0 ∧ ¬ env.portFree ctr.statsdPort then
    (sys, .error .portInUse)
  else if ¬ env.startOk then
    (sys, .error .startFailed)
  else
    let sys := { sys with running := sys.running ++ [sid] }
    let ctr :=
      if ctr.statsdHost = "" then { ctr with statsdHost := sys.ds.statsdHost }
      else ctr
    let step :=
      if ctr.statsdPort = 0 then
        match env.resolved with
        | none => Except.error AddErr.provisionTimeout
        | some p => Except.ok { ctr with statsdPort := p }
      else Except.ok ctr
    match step with
    | .error e => (sys, .error e)
    | .ok ctr =>
      if sys.ds.containersDir ≠ "" then
        if ¬ env.saveOk then
          (sys, .error .persistFailed)
        else
          let sys :=
            { sys with disk := mapInsert sys.disk ctr.id (marshalContainer ctr) }
          ({ sys with
              ds := { sys.ds with
                containers := mapInsert sys.ds.containers ctr.id ctr } },
            .ok ctr)
      else
        ({ sys with
            ds := { sys.ds with
              containers := mapInsert sys.ds.containers ctr.id ctr } },
          .ok ctr)

/-- Environment consulted by `RemoveContainer`: the outcome of the
container-file delete (`os.Remove`). -/
structure RemoveEnv where
  deleteOk : Bool

/-- The distinct error return sites of `RemoveContainer`. -/
inductive RemErr where
  | notFound
  | deleteFailed
deriving DecidableEq, Repr

/-- `DCOSStatsd.RemoveContainer` (controller.go). Looks the id up; if
absent, errors. If a containers dir is configured, deletes the file and
returns the error on failure *before* stopping the server or touching the
map. Otherwise stops the record's server and deletes the map entry. -/
def removeContainer (env : RemoveEnv) (sys : Sys) (c : Container) :
    Sys × Option RemErr :=
  match mapLookup sys.ds.containers c.id with
  | none => (sys, some .notFound)
  | some ctr =>
    if sys.ds.containersDir ≠ "" ∧ ¬ env.deleteOk then
      (sys, some .deleteFailed)
    else
      let sys :=
        if sys.ds.containersDir ≠ "" then
          { sys with disk := mapErase sys.disk c.id }
        else sys
      let sys :=
        match ctr.server with
        | some sid => { sys with running := sys.running.erase sid }
        | none => sys
      ({ sys with
          ds := { sys.ds with
            containers := mapErase sys.ds.containers c.id } },
        none)

/- ### GetContainer and the returned pointer (`controller.go:203`) -/

/-- Go zero value of `containers.Container`. -/
def zeroContainer : Container := ⟨"", "", 0, none⟩

/-- A world pairing the plugin state with a heap of `Container` cells,
used to give the pointer returned by `GetContainer` an address distinct
from the map's own storage (in Go, `ctr, ok := ds.containers[cid]` copies
the value into a fresh variable and `&ctr` points at that variable). -/
structure World where
  ds : DS
  heap : List Container
deriving DecidableEq, Repr

/-- `DCOSStatsd.GetContainer`: comma-ok map lookup into a fresh variable,
returning its address and the ok flag. The fresh cell is appended to the
heap; the map is only read. -/
def getContainer (w : World) (cid : String) : (Nat × Bool) × World :=
  let ctr := (mapLookup w.ds.containers cid).getD zeroContainer
  let ok := (mapLookup w.ds.containers cid).isSome
  ((w.heap.length, ok), { w with heap := w.heap ++ [ctr] })

/-- Read through a container pointer. -/
def ptrRead (w : World) (addr : Nat) : Option Container :=
  w.heap.get? addr

/-- Write through a container pointer (mutating the pointed-to record). -/
def ptrWrite (w : World) (addr : Nat) (c : Container) : World :=
  { w with heap := w.heap.set addr c }

/- ### Startup load (`loadContainers`, controller.go:301) -/

/-- One directory entry as seen by `loadContainers`: a file that
`os.Open` rejects, a file whose JSON does not decode, or a good file
holding a persisted record. -/
inductive DiskFile where
  | unreadable
  | undecodable
  | good (rec : PRecord)
deriving DecidableEq, Repr

/-- The body of the `loadContainers` loop for one directory entry: open
failures and decode failures `continue`; a good record is handed to
`AddContainer` (whose own failure is also just logged and skipped). Each
entry is paired with the environment its `AddContainer` call sees. -/
def loadStep (sys : Sys) : DiskFile × AddEnv → Sys
  | (.unreadable, _) => sys
  | (.undecodable, _) => sys
  | (.good r, env) => (addContainer env sys (recToContainer r)).1

/-- `DCOSStatsd.loadContainers`: fold the loop body over the directory
listing. (`ioutil.ReadDir` succeeding is the premise of the loop; its own
failure is the only aborting return.) -/
def loadContainers (sys : Sys) : List (DiskFile × AddEnv) → Sys
  | [] => sys
  | fe :: rest => loadContainers (loadStep sys fe) rest

/- ### Harvest (`Gather`, controller.go:159) -/

/-- One metric emitted by a container's statsd server through the tagging
accumulator, before the `container_id` tag is injected. -/
structure RawMetric where
  measurement : String
  fields : List (String × Int)
  tags : List (String × String)
deriving DecidableEq, Repr

/-- Environment for `Gather`: what each server's `Gather(cacc)` call emits
into its accumulator and the error it returns (`none` = nil). The wire
parser is the external statsd listener capability; only its observable
behaviour is modelled. -/
structure GatherEnv where
  collect : Nat → List RawMetric × Option String

/-- The metrics one container's collection task forwards to the shared
accumulator: everything its server emits, tagged via `ctags` with the
container's id. -/
def containerMetrics (env : GatherEnv) (c : Container) : List FCall :=
  (env.collect (c.server.getD 0)).1.map
    (fun m => ⟨m.measurement, m.fields, ctags c.id m.tags⟩)

/-- `DCOSStatsd.Gather`: one collection task per registered container; the
call joins all tasks. Returns the forwarded metrics, the list of logged
per-task error messages (`log.Printf("E! Error gathering ...")`), and the
function's return value — which is always nil. -/
def gather (env : GatherEnv) (sys : Sys) :
    List FCall × List String × Option String :=
  let ms :=
    (sys.ds.containers.map (fun kv => containerMetrics env kv.2)).flatten
  let logs := sys.ds.containers.filterMap
    (fun kv => (env.collect (kv.2.server.getD 0)).2)
  (ms, logs, none)

/- ### Control-plane handler (`api/api.go:71`) -/

/-- The responses the `AddContainer` HTTP handler can produce. -/
inductive ApiResp where
  | badRequest
  | seeOther (loc : String)
  | created (c : Container)
  | serverError
deriving DecidableEq, Repr

/-- `api.AddContainer`: decode the body (400 on failure); if the id is
already registered, redirect to the existing container *without* calling
the controller; otherwise call `AddContainer` and answer 201 or 500. -/
def apiAddContainer (env : AddEnv) (sys : Sys) (body : Option Container) :
    Sys × ApiResp :=
  match body with
  | none => (sys, .badRequest)
  | some ctr =>
    if (mapLookup sys.ds.containers ctr.id).isSome then
      (sys, .seeOther ("/container/" ++ ctr.id))
    else
      match addContainer env sys ctr with
      | (sys', .ok c) => (sys', .created c)
      | (sys', .error _) => (sys', .serverError)

/- ### Supporting lemmas -/

/-- The last binding of a key in a list of pairs, mirroring which value a
sequence of Go map assignments leaves in place. -/
def lastBind : List (String × String) → String → Option String
  | [], _ => none
  | kv :: rest, k =>
    (lastBind rest k).or (if kv.1 = k then some kv.2 else none)

theorem mapLookup_foldl_mapInsert (tags base : List (String × String))
    (k : String) :
    mapLookup (tags.foldl (fun m kv => mapInsert m kv.1 kv.2) base) k
      = (lastBind tags k).or (mapLookup base k) := by
  induction tags generalizing base with
  | nil => simp [lastBind]
  | cons hd tl ih =>
    show mapLookup (tl.foldl _ (mapInsert base hd.1 hd.2)) k = _
    rw [ih]
    cases hlb : lastBind tl k with
    | some v => simp [lastBind, hlb, Option.or]
    | none =>
      by_cases h1 : hd.1 = k
      · subst h1
        simp [lastBind, hlb, Option.or, mapLookup_mapInsert_self]
      · simp [lastBind, hlb, Option.or, h1,
          mapLookup_mapInsert_ne base hd.1 k hd.2 h1]

theorem mapLookup_eq_none_iff (l : List (String × α)) (k : String) :
    mapLookup l k = none ↔ k ∉ l.map Prod.fst := by
  induction l with
  | nil => simp [mapLookup]
  | cons hd tl ih =>
    by_cases h : hd.1 = k
    · subst h; simp [mapLookup]
    · have hstep : mapLookup (hd :: tl) k = mapLookup tl k := by
        simp [mapLookup, h]
      have hne : ¬ k = hd.1 := fun e => h e.symm
      rw [hstep, ih]
      simp [hne]

theorem lastBind_of_nodup (l : List (String × String)) (k : String)
    (hnd : (l.map Prod.fst).Nodup) : lastBind l k = mapLookup l k := by
  induction l with
  | nil => rfl
  | cons hd tl ih =>
    simp only [List.map_cons, List.nodup_cons] at hnd
    by_cases h : hd.1 = k
    · subst h
      have htl : mapLookup tl hd.1 = none :=
        (mapLookup_eq_none_iff tl hd.1).mpr hnd.1
      have : lastBind tl hd.1 = none := by rw [ih hnd.2, htl]
      simp [lastBind, mapLookup, this, Option.or]
    · simp [lastBind, mapLookup, h, ih hnd.2, Option.or_none]

theorem ctags_lookup_container_id (cid : String)
    (tags : List (String × String)) :
    mapLookup (ctags cid tags) "container_id"
      = some ((lastBind tags "container_id").getD cid) := by
  rw [ctags, mapLookup_foldl_mapInsert]
  cases h : lastBind tags "container_id" <;> simp [mapLookup, Option.or]

/- ### C1: tag precedence in the tagging accumulator -/

/-- C1: counterexample. A metric forwarded through the container's tagged
sink with a caller-supplied `container_id` tag set to `"other"` reaches
the underlying accumulator with `container_id ↦ "other"`, not the
container's own id `"cid0"`: the caller's tag, not the injected identity
tag, wins (`ctags` seeds the result with the identity tag and then copies
the caller's tags over it). -/
theorem addFields_injected_tag_loses :
    mapLookup (accAddFields "cid0" "m" []
        [("container_id", "other")]).tags "container_id"
      = some "other"
    ∧ mapLookup (accAddFields "cid0" "m" []
        [("container_id", "other")]).tags "container_id"
      ≠ some "cid0" := by
  constructor
  · rfl
  · intro h
    simp [accAddFields, ctags, mapInsert, mapLookup] at h

/-- C1 (amended): for every metric emitted through a container's tagged
sink, the tag map passed to the underlying accumulator maps
`"container_id"` to the caller-supplied value whenever the caller's tag
map already binds that key, and to the container's id otherwise — the
injected identity tag only fills in when the caller did not set one. -/
theorem addFields_container_id_tag (cid measurement : String)
    (fields : List (String × Int)) (tags : List (String × String))
    (hnd : (tags.map Prod.fst).Nodup) :
    mapLookup (accAddFields cid measurement fields tags).tags "container_id"
      = some ((mapLookup tags "container_id").getD cid) := by
  show mapLookup (ctags cid tags) "container_id" = _
  rw [ctags_lookup_container_id, lastBind_of_nodup tags _ hnd]

/-- C1 (amended) witness: with no caller `container_id` tag the identity
tag is injected; with one, the caller's value is what arrives. -/
theorem addFields_container_id_tag_witness :
    mapLookup (accAddFields "cid0" "m" [] [("k", "v")]).tags "container_id"
      = some "cid0"
    ∧ mapLookup (accAddFields "cid0" "m" []
        [("container_id", "other")]).tags "container_id"
      = some "other" :=
  ⟨(addFields_container_id_tag "cid0" "m" [] [("k", "v")]
      (by decide)).trans (by decide),
    (addFields_container_id_tag "cid0" "m" [] [("container_id", "other")]
      (by decide)).trans (by decide)⟩

/- ### C2: Add when the durable write fails -/

/-- C2: counterexample. A fault-injected store (`saveOk = false`): Add
returns the persist error and inserts nothing, but the server provisioned
in that same call (id 0) is still in the running ledger afterwards — the
rollback the claim describes does not happen; the orphaned socket
survives. -/
theorem addContainer_persistFailed_no_rollback :
    (addContainer ⟨fun _ => true, true, some 9, false⟩
        ⟨⟨"/dir", "h0", []⟩, [], 0, []⟩ ⟨"c1", "h", 5, none⟩).2
      = .error .persistFailed
    ∧ (addContainer ⟨fun _ => true, true, some 9, false⟩
        ⟨⟨"/dir", "h0", []⟩, [], 0, []⟩ ⟨"c1", "h", 5, none⟩).1.running
      = [0]
    ∧ (addContainer ⟨fun _ => true, true, some 9, false⟩
        ⟨⟨"/dir", "h0", []⟩, [], 0, []⟩ ⟨"c1", "h", 5, none⟩).1.ds.containers
      = [] :=
  ⟨rfl, rfl, rfl⟩

/-- C2 (amended): for every Add call in which the container-file write
fails after the listener was provisioned, Add returns the persist error,
no record is inserted into the registry map and nothing is written to
disk — but the listener provisioned in that same call is NOT terminated:
it remains in the running ledger, so an orphaned socket does survive the
failed Add. -/
theorem addContainer_persistFailed (env : AddEnv) (sys : Sys)
    (ctr : Container) (hdir : sys.ds.containersDir ≠ "")
    (hfree : ctr.statsdPort ≠ 0 → env.portFree ctr.statsdPort = true)
    (hstart : env.startOk = true)
    (hres : ctr.statsdPort = 0 → ∃ p, env.resolved = some p)
    (hsave : env.saveOk = false) :
    (addContainer env sys ctr).2 = .error .persistFailed
    ∧ (addContainer env sys ctr).1.ds.containers = sys.ds.containers
    ∧ (addContainer env sys ctr).1.disk = sys.disk
    ∧ (addContainer env sys ctr).1.running = sys.running ++ [sys.nextSid] := by
  by_cases hp : ctr.statsdPort = 0
  · obtain ⟨p, hpres⟩ := hres hp
    by_cases hh : ctr.statsdHost = "" <;>
      simp [addContainer, hp, hh, hstart, hpres, hdir, hsave]
  · have hfree' := hfree hp
    by_cases hh : ctr.statsdHost = "" <;>
      simp [addContainer, hp, hh, hstart, hfree', hdir, hsave]

/-- C2 (amended) witness: concrete failing store, fixed-port request. -/
theorem addContainer_persistFailed_witness :
    (addContainer ⟨fun _ => true, true, some 9, false⟩
        ⟨⟨"/d", "h0", []⟩, [4], 7, []⟩ ⟨"c2", "h", 5, none⟩).2
      = .error .persistFailed
    ∧ (addContainer ⟨fun _ => true, true, some 9, false⟩
        ⟨⟨"/d", "h0", []⟩, [4], 7, []⟩ ⟨"c2", "h", 5, none⟩).1.ds.containers
      = []
    ∧ (addContainer ⟨fun _ => true, true, some 9, false⟩
        ⟨⟨"/d", "h0", []⟩, [4], 7, []⟩ ⟨"c2", "h", 5, none⟩).1.disk = []
    ∧ (addContainer ⟨fun _ => true, true, some 9, false⟩
        ⟨⟨"/d", "h0", []⟩, [4], 7, []⟩ ⟨"c2", "h", 5, none⟩).1.running
      = [4] ++ [7] := by
  have h := addContainer_persistFailed ⟨fun _ => true, true, some 9, false⟩
    ⟨⟨"/d", "h0", []⟩, [4], 7, []⟩ ⟨"c2", "h", 5, none⟩
    (by decide) (fun _ => rfl) rfl (fun hz => by cases hz) rfl
  exact h

/- ### C3: Remove when the durable delete fails -/

/-- C3: counterexample. With a registered container (server id 0 running)
and a failing `os.Remove`, Remove returns the error but the record is
still registered and its listener still running afterwards: the code
returns before `Server.Stop()` and before the map delete, contradicting
the claim that it still terminates and deregisters. -/
theorem removeContainer_deleteFailed_keeps_record :
    (removeContainer ⟨false⟩
        ⟨⟨"/dir", "h0", [("c1", ⟨"c1", "h", 5, some 0⟩)]⟩, [0], 1,
          [("c1", ⟨"c1", "h", 5⟩)]⟩ ⟨"c1", "h", 5, some 0⟩).2
      = some .deleteFailed
    ∧ mapLookup (removeContainer ⟨false⟩
        ⟨⟨"/dir", "h0", [("c1", ⟨"c1", "h", 5, some 0⟩)]⟩, [0], 1,
          [("c1", ⟨"c1", "h", 5⟩)]⟩ ⟨"c1", "h", 5, some 0⟩).1.ds.containers
        "c1"
      = some ⟨"c1", "h", 5, some 0⟩
    ∧ (removeContainer ⟨false⟩
        ⟨⟨"/dir", "h0", [("c1", ⟨"c1", "h", 5, some 0⟩)]⟩, [0], 1,
          [("c1", ⟨"c1", "h", 5⟩)]⟩ ⟨"c1", "h", 5, some 0⟩).1.running
      = [0] :=
  ⟨rfl, rfl, rfl⟩

/-- C3 (amended): for every Remove call on a registered id with a durable
directory configured, if the on-disk delete fails then Remove surfaces
the error and does nothing else: the record's listener is not terminated,
the record stays in the in-memory map, and the disk entry stays — the
whole state is unchanged. -/
theorem removeContainer_deleteFailed (env : RemoveEnv) (sys : Sys)
    (c ctr : Container)
    (hreg : mapLookup sys.ds.containers c.id = some ctr)
    (hdir : sys.ds.containersDir ≠ "") (hdel : env.deleteOk = false) :
    (removeContainer env sys c).2 = some .deleteFailed
    ∧ (removeContainer env sys c).1 = sys := by
  simp [removeContainer, hreg, hdir, hdel]

/-- C3 (amended) witness. -/
theorem removeContainer_deleteFailed_witness :
    (removeContainer ⟨false⟩
        ⟨⟨"/d", "h0", [("c9", ⟨"c9", "h", 3, some 2⟩)]⟩, [2], 3, []⟩
        ⟨"c9", "", 0, none⟩).2
      = some .deleteFailed
    ∧ (removeContainer ⟨false⟩
        ⟨⟨"/d", "h0", [("c9", ⟨"c9", "h", 3, some 2⟩)]⟩, [2], 3, []⟩
        ⟨"c9", "", 0, none⟩).1
      = ⟨⟨"/d", "h0", [("c9", ⟨"c9", "h", 3, some 2⟩)]⟩, [2], 3, []⟩ :=
  removeContainer_deleteFailed ⟨false⟩
    ⟨⟨"/d", "h0", [("c9", ⟨"c9", "h", 3, some 2⟩)]⟩, [2], 3, []⟩
    ⟨"c9", "", 0, none⟩ ⟨"c9", "h", 3, some 2⟩ rfl (by decide) rfl

/- ### C4: Add with an id already present -/

/-- C4: counterexample. The registry-level `AddContainer` performs no
duplicate-id check: called with id `"c1"` already registered (old server
id 0), it provisions a *new* listener (server id 1 joins the running
ledger), returns a record different from the stored one, and overwrites
the map entry — not "the existing record unchanged" and not "no new
listener". -/
theorem addContainer_existing_id_reprovisions :
    (addContainer ⟨fun _ => true, true, some 9, true⟩
        ⟨⟨"", "h0", [("c1", ⟨"c1", "h", 7, some 0⟩)]⟩, [0], 1, []⟩
        ⟨"c1", "h", 7, none⟩).1.running
      = [0, 1]
    ∧ (addContainer ⟨fun _ => true, true, some 9, true⟩
        ⟨⟨"", "h0", [("c1", ⟨"c1", "h", 7, some 0⟩)]⟩, [0], 1, []⟩
        ⟨"c1", "h", 7, none⟩).2
      = .ok ⟨"c1", "h", 7, some 1⟩
    ∧ mapLookup (addContainer ⟨fun _ => true, true, some 9, true⟩
        ⟨⟨"", "h0", [("c1", ⟨"c1", "h", 7, some 0⟩)]⟩, [0], 1, []⟩
        ⟨"c1", "h", 7, none⟩).1.ds.containers "c1"
      ≠ some ⟨"c1", "h", 7, some 0⟩ := by
  refine ⟨rfl, rfl, ?_⟩
  intro h
  simp [addContainer, mapLookup, mapInsert] at h

/-- C4 (amended): the duplicate-id collision policy lives at the
control-plane boundary, not in the registry: the `AddContainer` HTTP
handler, on a body whose id is already registered, answers with a
redirect to the existing container, leaves the entire state unchanged,
and never invokes provisioning (its outcome is independent of the
provisioning environment), so through the API at most one live record and
listener exist per id; the registry-level `AddContainer`, by contrast,
performs no duplicate check and, called directly with an existing id,
provisions a new listener and overwrites the record. -/
theorem apiAddContainer_existing_redirects (env env' : AddEnv) (sys : Sys)
    (ctr : Container)
    (hreg : (mapLookup sys.ds.containers ctr.id).isSome = true) :
    apiAddContainer env sys (some ctr)
      = (sys, .seeOther ("/container/" ++ ctr.id))
    ∧ apiAddContainer env sys (some ctr)
      = apiAddContainer env' sys (some ctr) := by
  simp [apiAddContainer, hreg]

/-- C4 (amended) witness. -/
theorem apiAddContainer_existing_redirects_witness :
    apiAddContainer ⟨fun _ => true, true, some 9, true⟩
        ⟨⟨"", "h0", [("c1", ⟨"c1", "h", 7, some 0⟩)]⟩, [0], 1, []⟩
        (some ⟨"c1", "h", 7, none⟩)
      = (⟨⟨"", "h0", [("c1", ⟨"c1", "h", 7, some 0⟩)]⟩, [0], 1, []⟩,
          .seeOther "/container/c1") :=
  (apiAddContainer_existing_redirects
    ⟨fun _ => true, true, some 9, true⟩
    ⟨fun _ => false, false, none, false⟩
    ⟨⟨"", "h0", [("c1", ⟨"c1", "h", 7, some 0⟩)]⟩, [0], 1, []⟩
    ⟨"c1", "h", 7, none⟩ rfl).1

/- ### C5: port probe before starting the server -/

/-- C5: for every Add with an explicitly requested non-zero port that the
UDP probe finds occupied, Add fails with the port-in-use error having
changed nothing but the fresh-id counter — in particular no server joins
the running ledger — and the outcome is independent of the
listener-starting capability's behaviour (`startOk`/`resolved`) and of
the store (`saveOk`), showing the failure happens before any of them is
invoked; dually, for a port requested as 0 the probe result is never
consulted (the outcome is independent of `portFree`). -/
theorem addContainer_port_probe (env : AddEnv) (sys : Sys)
    (ctr : Container) :
    (ctr.statsdPort ≠ 0 → env.portFree ctr.statsdPort = false →
      addContainer env sys ctr
        = ({ sys with nextSid := sys.nextSid + 1 }, .error .portInUse)
      ∧ ∀ b r s, addContainer ⟨env.portFree, b, r, s⟩ sys ctr
          = addContainer env sys ctr)
    ∧ (ctr.statsdPort = 0 → ∀ pf,
        addContainer ⟨pf, env.startOk, env.resolved, env.saveOk⟩ sys ctr
          = addContainer env sys ctr) := by
  constructor
  · intro hp hocc
    constructor
    · simp [addContainer, hp, hocc]
    · intro b r s
      simp [addContainer, hp, hocc]
  · intro hp pf
    simp [addContainer, hp]

/-- C5 witness: requesting occupied port 5 fails with the port error and
leaves the running ledger untouched. -/
theorem addContainer_port_probe_witness :
    addContainer ⟨fun _ => false, true, some 9, true⟩
        ⟨⟨"/d", "h0", []⟩, [], 0, []⟩ ⟨"c1", "h", 5, none⟩
      = (⟨⟨"/d", "h0", []⟩, [], 1, []⟩, .error .portInUse) :=
  ((addContainer_port_probe ⟨fun _ => false, true, some 9, true⟩
      ⟨⟨"/d", "h0", []⟩, [], 0, []⟩ ⟨"c1", "h", 5, none⟩).1
    (by decide) rfl).1

/- ### C6: harvest error reporting -/

/-- C6: counterexample. A registered container whose server's gather call
fails with `"boom"`: the failure is logged, yet `Gather`'s returned
outcome is `none` (the Go function always returns nil) — per-task errors
are not collected into any aggregated returned outcome. -/
theorem gather_returns_nil_on_task_failure :
    (gather ⟨fun _ => ([], some "boom")⟩
        ⟨⟨"", "h0", [("c1", ⟨"c1", "h", 7, some 0⟩)]⟩, [0], 1, []⟩).2.1
      = ["boom"]
    ∧ (gather ⟨fun _ => ([], some "boom")⟩
        ⟨⟨"", "h0", [("c1", ⟨"c1", "h", 7, some 0⟩)]⟩, [0], 1, []⟩).2.2
      = none :=
  ⟨rfl, rfl⟩

/-- C6 (amended): Gather runs one collection task per registered
container and joins them all; each per-task error is logged (reported in
the log, not silently dropped) but the call's returned outcome is always
nil — errors are never aggregated into the return value; and one task's
failure does not cancel or corrupt its siblings: every container's
metrics, tagged with its id, appear in the forwarded output regardless of
what the other tasks do. -/
theorem gather_logs_and_isolates (env : GatherEnv) (sys : Sys) :
    (gather env sys).2.2 = none
    ∧ (∀ kv ∈ sys.ds.containers,
        (containerMetrics env kv.2).Sublist (gather env sys).1)
    ∧ (∀ kv ∈ sys.ds.containers, ∀ e,
        (env.collect (kv.2.server.getD 0)).2 = some e →
          e ∈ (gather env sys).2.1) := by
  refine ⟨rfl, ?_, ?_⟩
  · intro kv hkv
    exact List.sublist_flatten_of_mem
      (List.mem_map_of_mem (fun kv => containerMetrics env kv.2) hkv)
  · intro kv hkv e he
    exact List.mem_filterMap.mpr ⟨kv, hkv, he⟩

/-- C6 (amended) witness: with one failing and one healthy container, the
healthy container's tagged metric is in the output and the failure is in
the log. -/
theorem gather_logs_and_isolates_witness :
    (containerMetrics
        ⟨fun sid => if sid = 0 then ([], some "boom")
          else ([⟨"m", [("f", 1)], []⟩], none)⟩
        ⟨"c2", "h", 8, some 1⟩).Sublist
      (gather
        ⟨fun sid => if sid = 0 then ([], some "boom")
          else ([⟨"m", [("f", 1)], []⟩], none)⟩
        ⟨⟨"", "h0", [("c1", ⟨"c1", "h", 7, some 0⟩),
            ("c2", ⟨"c2", "h", 8, some 1⟩)]⟩, [0, 1], 2, []⟩).1
    ∧ "boom" ∈ (gather
        ⟨fun sid => if sid = 0 then ([], some "boom")
          else ([⟨"m", [("f", 1)], []⟩], none)⟩
        ⟨⟨"", "h0", [("c1", ⟨"c1", "h", 7, some 0⟩),
            ("c2", ⟨"c2", "h", 8, some 1⟩)]⟩, [0, 1], 2, []⟩).2.1 :=
  ⟨(gather_logs_and_isolates _ _).2.1 ("c2", ⟨"c2", "h", 8, some 1⟩)
      (by simp),
    (gather_logs_and_isolates _ _).2.2 ("c1", ⟨"c1", "h", 7, some 0⟩)
      (by simp) "boom" rfl⟩

/- ### C8: Provision failure during Add -/

/-- All server ids held by registered records were allocated before the
current fresh-id counter (true of every reachable state, since records
only enter the map holding the id allocated in the same call). -/
def wfSids (sys : Sys) : Prop :=
  ∀ kv ∈ sys.ds.containers, ∀ s, kv.2.server = some s → s < sys.nextSid

/-- A listening resource is attributed to a container when some
registered record holds its server id. -/
def attributed (sys : Sys) (sid : Nat) : Prop :=
  ∃ kv ∈ sys.ds.containers, kv.2.server = some sid

/-- C8: for every Provision failure during Add — the listener-starting
capability failing to bind (`startOk = false`), or, for a dynamic-port
request, the capability not publishing its bound address within the
one-second wait (`resolved = none`) — Add returns an error, the registry
map is unchanged (no record registered), and the server struct allocated
in this call is attributed to no container. -/
theorem addContainer_provision_failure (env : AddEnv) (sys : Sys)
    (ctr : Container) (hwf : wfSids sys) :
    (env.startOk = false →
      (ctr.statsdPort ≠ 0 → env.portFree ctr.statsdPort = true) →
      (addContainer env sys ctr).2 = .error .startFailed
      ∧ (addContainer env sys ctr).1.ds.containers = sys.ds.containers
      ∧ (addContainer env sys ctr).1.running = sys.running
      ∧ ¬ attributed (addContainer env sys ctr).1 sys.nextSid)
    ∧ (ctr.statsdPort = 0 → env.startOk = true → env.resolved = none →
      (addContainer env sys ctr).2 = .error .provisionTimeout
      ∧ (addContainer env sys ctr).1.ds.containers = sys.ds.containers
      ∧ ¬ attributed (addContainer env sys ctr).1 sys.nextSid) := by
  have hnoattr :
      ∀ sys' : Sys, sys'.ds.containers = sys.ds.containers →
        ¬ attributed sys' sys.nextSid := by
    intro sys' hc hattr
    obtain ⟨kv, hkv, hs⟩ := hattr
    rw [hc] at hkv
    exact lt_irrefl _ (hwf kv hkv _ hs)
  constructor
  · intro hstart hfree
    have heq : (addContainer env sys ctr).1.ds.containers = sys.ds.containers
        ∧ (addContainer env sys ctr).2 = .error .startFailed
        ∧ (addContainer env sys ctr).1.running = sys.running := by
      by_cases hp : ctr.statsdPort = 0
      · simp [addContainer, hp, hstart]
      · have hfree' := hfree hp
        simp [addContainer, hp, hfree', hstart]
    exact ⟨heq.2.1, heq.1, heq.2.2, hnoattr _ heq.1⟩
  · intro hp hstart hres
    have heq : (addContainer env sys ctr).1.ds.containers = sys.ds.containers
        ∧ (addContainer env sys ctr).2 = .error .provisionTimeout := by
      by_cases hh : ctr.statsdHost = "" <;>
        simp [addContainer, hp, hh, hstart, hres]
    exact ⟨heq.2, heq.1, hnoattr _ heq.1⟩

/-- C8 witness: both failure shapes at concrete inputs (a bind failure on
a fixed-port request, and a discovery timeout on a dynamic request). -/
theorem addContainer_provision_failure_witness :
    ((addContainer ⟨fun _ => true, false, some 9, true⟩
        ⟨⟨"/d", "h0", []⟩, [], 0, []⟩ ⟨"c1", "h", 5, none⟩).2
      = .error .startFailed
    ∧ (addContainer ⟨fun _ => true, false, some 9, true⟩
        ⟨⟨"/d", "h0", []⟩, [], 0, []⟩ ⟨"c1", "h", 5, none⟩).1.ds.containers
      = [])
    ∧ ((addContainer ⟨fun _ => true, true, none, true⟩
        ⟨⟨"/d", "h0", []⟩, [], 0, []⟩ ⟨"c1", "h", 0, none⟩).2
      = .error .provisionTimeout
    ∧ (addContainer ⟨fun _ => true, true, none, true⟩
        ⟨⟨"/d", "h0", []⟩, [], 0, []⟩ ⟨"c1", "h", 0, none⟩).1.ds.containers
      = []) := by
  have h1 := (addContainer_provision_failure
    ⟨fun _ => true, false, some 9, true⟩ ⟨⟨"/d", "h0", []⟩, [], 0, []⟩
    ⟨"c1", "h", 5, none⟩ (by intro kv hkv; cases hkv)).1
    rfl (fun _ => rfl)
  have h2 := (addContainer_provision_failure
    ⟨fun _ => true, true, none, true⟩ ⟨⟨"/d", "h0", []⟩, [], 0, []⟩
    ⟨"c1", "h", 0, none⟩ (by intro kv hkv; cases hkv)).2
    rfl rfl rfl
  exact ⟨⟨h1.1, h1.2.1⟩, ⟨h2.1, h2.2.1⟩⟩

/- ### Outcome analysis of AddContainer -/

set_option maxHeartbeats 1000000 in
theorem addContainer_cases (env : AddEnv) (sys : Sys) (c0 : Container) :
    ((∃ err, (addContainer env sys c0).2 = Except.error err)
      ∧ (addContainer env sys c0).1.ds.containers = sys.ds.containers)
    ∨ (∃ c', (addContainer env sys c0).2 = Except.ok c'
      ∧ c'.id = c0.id
      ∧ (addContainer env sys c0).1.ds.containers
          = mapInsert sys.ds.containers c0.id c') := by
  obtain ⟨i, ho, po, s⟩ := c0
  by_cases hp : po = 0 <;> by_cases hh : ho = "" <;>
    cases hstart : env.startOk <;> cases hfree : env.portFree po <;>
    cases hpr : env.resolved <;>
    by_cases hd : sys.ds.containersDir = "" <;> cases hsave : env.saveOk
  all_goals
    first
      | (refine Or.inr ⟨⟨i, if ho = "" then sys.ds.statsdHost else ho,
            if po = 0 then env.resolved.getD 0 else po,
            some sys.nextSid⟩, ?_, ?_, ?_⟩ <;>
          simp [addContainer, hp, hh, hstart, hfree, hpr, hd, hsave] <;>
          done)
      | (refine Or.inl ⟨?_, ?_⟩ <;>
          simp [addContainer, hp, hh, hstart, hfree, hpr, hd, hsave])

theorem addContainer_error_unchanged (env : AddEnv) (sys : Sys)
    (c0 : Container) (err : AddErr)
    (h : (addContainer env sys c0).2 = Except.error err) :
    (addContainer env sys c0).1.ds.containers = sys.ds.containers := by
  rcases addContainer_cases env sys c0 with ⟨_, hunch⟩ | ⟨c', hok, _, _⟩
  · exact hunch
  · rw [hok] at h; cases h

theorem addContainer_lookup_other (env : AddEnv) (sys : Sys)
    (c0 : Container) (k : String) (hk : k ≠ c0.id) :
    mapLookup (addContainer env sys c0).1.ds.containers k
      = mapLookup sys.ds.containers k := by
  rcases addContainer_cases env sys c0 with ⟨_, hunch⟩ | ⟨c', _, _, hins⟩
  · rw [hunch]
  · rw [hins, mapLookup_mapInsert_ne _ _ _ _ (fun e => hk e.symm)]

/-- A fully permissive environment makes `AddContainer` succeed, insert
the (host-defaulted, port-resolved) record under the container's id, and,
when a durable dir is configured, write exactly its projection to disk. -/
theorem addContainer_succeeds (env : AddEnv) (sys : Sys) (c0 : Container)
    (hstart : env.startOk = true)
    (hfree : c0.statsdPort ≠ 0 → env.portFree c0.statsdPort = true)
    (hres : c0.statsdPort = 0 → env.resolved.isSome = true)
    (hsave : env.saveOk = true) :
    ∃ c', (addContainer env sys c0).2 = Except.ok c'
      ∧ c'.id = c0.id
      ∧ c'.statsdHost
          = (if c0.statsdHost = "" then sys.ds.statsdHost
              else c0.statsdHost)
      ∧ c'.statsdPort
          = (if c0.statsdPort = 0 then env.resolved.getD 0
              else c0.statsdPort)
      ∧ (addContainer env sys c0).1.ds.containers
          = mapInsert sys.ds.containers c0.id c'
      ∧ (sys.ds.containersDir ≠ "" →
          (addContainer env sys c0).1.disk
            = mapInsert sys.disk c0.id (marshalContainer c')) := by
  obtain ⟨i, ho, po, s⟩ := c0
  by_cases hp : po = 0
  · have hres' := hres hp
    cases hpr : env.resolved with
    | none => rw [hpr] at hres'; cases hres'
    | some p =>
      refine ⟨⟨i, if ho = "" then sys.ds.statsdHost else ho,
          if po = 0 then env.resolved.getD 0 else po, some sys.nextSid⟩,
        ?_, ?_, ?_, ?_, ?_, fun hdir => ?_⟩ <;>
      by_cases hh : ho = "" <;> by_cases hd : sys.ds.containersDir = "" <;>
        simp_all [addContainer, marshalContainer]
  · have hfree' := hfree hp
    refine ⟨⟨i, if ho = "" then sys.ds.statsdHost else ho,
        if po = 0 then env.resolved.getD 0 else po, some sys.nextSid⟩,
      ?_, ?_, ?_, ?_, ?_, fun hdir => ?_⟩ <;>
    by_cases hh : ho = "" <;> by_cases hd : sys.ds.containersDir = "" <;>
      simp_all [addContainer, marshalContainer]

/- ### C9: startup load skips failing records -/

theorem loadContainers_append (sys : Sys)
    (a b : List (DiskFile × AddEnv)) :
    loadContainers sys (a ++ b) = loadContainers (loadContainers sys a) b := by
  induction a generalizing sys with
  | nil => rfl
  | cons fe rest ih => simp [loadContainers, ih]

theorem loadContainers_lookup_preserved (k : String) (c' : Container)
    (files : List (DiskFile × AddEnv)) (sys : Sys)
    (hk : mapLookup sys.ds.containers k = some c')
    (hfiles : ∀ fe ∈ files, ∀ r', fe.1 = DiskFile.good r' → r'.id ≠ k) :
    mapLookup (loadContainers sys files).ds.containers k = some c' := by
  induction files generalizing sys with
  | nil => exact hk
  | cons fe rest ih =>
    show mapLookup (loadContainers (loadStep sys fe) rest).ds.containers k
      = some c'
    apply ih
    · match fe with
      | (DiskFile.unreadable, e) => exact hk
      | (DiskFile.undecodable, e) => exact hk
      | (DiskFile.good r', e) =>
        have hne : r'.id ≠ k :=
          hfiles _ (List.mem_cons_self _ _) r' rfl
        show mapLookup
            (addContainer e sys (recToContainer r')).1.ds.containers k
          = some c'
        rw [addContainer_lookup_other e sys (recToContainer r') k
          (fun e' => hne e'.symm)]
        exact hk
    · exact fun fe' h' => hfiles fe' (List.mem_cons_of_mem _ h')

/-- C9: for every startup load over a durable store, an individual
record's failure — an unreadable file, an undecodable file, or a record
whose re-provisioning `AddContainer` call errors — leaves the registry
untouched by that entry and never aborts loading the rest: any good
record (placed after arbitrary failing or succeeding entries) whose own
environment lets its `AddContainer` succeed still ends up registered
under its id. -/
theorem loadContainers_isolates_failures (sys : Sys)
    (pre post : List (DiskFile × AddEnv)) (r : PRecord) (env : AddEnv)
    (hstart : env.startOk = true)
    (hfree : r.statsdPort ≠ 0 → env.portFree r.statsdPort = true)
    (hres : r.statsdPort = 0 → env.resolved.isSome = true)
    (hsave : env.saveOk = true)
    (hpost : ∀ fe ∈ post, ∀ r', fe.1 = DiskFile.good r' → r'.id ≠ r.id) :
    (∃ c', mapLookup (loadContainers sys
          (pre ++ (DiskFile.good r, env) :: post)).ds.containers r.id
        = some c' ∧ c'.id = r.id)
    ∧ (∀ sys' : Sys, ∀ f : DiskFile, ∀ e : AddEnv,
        (f = DiskFile.unreadable ∨ f = DiskFile.undecodable ∨
          ∃ r' err, f = DiskFile.good r'
            ∧ (addContainer e sys' (recToContainer r')).2
                = Except.error err) →
        (loadStep sys' (f, e)).ds.containers = sys'.ds.containers) := by
  constructor
  · rw [loadContainers_append]
    obtain ⟨c', hok, hid, hhost, hport, hins, hdisk⟩ :=
      addContainer_succeeds env (loadContainers sys pre)
        (recToContainer r) hstart hfree hres hsave
    refine ⟨c', ?_, hid⟩
    show mapLookup (loadContainers
        (loadStep (loadContainers sys pre) (DiskFile.good r, env)) post
      ).ds.containers r.id = some c'
    apply loadContainers_lookup_preserved r.id c' post _ _ hpost
    show mapLookup
        (addContainer env (loadContainers sys pre)
          (recToContainer r)).1.ds.containers r.id = some c'
    rw [hins]
    exact mapLookup_mapInsert_self _ _ _
  · intro sys' f e h
    rcases h with rfl | rfl | ⟨r', err, rfl, herr⟩
    · rfl
    · rfl
    · exact addContainer_error_unchanged e sys' (recToContainer r') err herr

/-- C9 witness: a directory with an unreadable file, an undecodable file,
and a record whose port is occupied, followed by a good record — the good
record still loads. -/
theorem loadContainers_isolates_failures_witness :
    ∃ c', mapLookup (loadContainers ⟨⟨"/d", "h0", []⟩, [], 0, []⟩
        ([(DiskFile.unreadable, ⟨fun _ => true, true, some 9, true⟩),
          (DiskFile.undecodable, ⟨fun _ => true, true, some 9, true⟩),
          (DiskFile.good ⟨"bad", "h", 5⟩, ⟨fun _ => false, true, some 9, true⟩)]
          ++ (DiskFile.good ⟨"good", "h", 6⟩,
              ⟨fun _ => true, true, some 9, true⟩) :: [])).ds.containers
        "good"
      = some c' ∧ c'.id = "good" :=
  (loadContainers_isolates_failures ⟨⟨"/d", "h0", []⟩, [], 0, []⟩
    [(DiskFile.unreadable, ⟨fun _ => true, true, some 9, true⟩),
      (DiskFile.undecodable, ⟨fun _ => true, true, some 9, true⟩),
      (DiskFile.good ⟨"bad", "h", 5⟩, ⟨fun _ => false, true, some 9, true⟩)]
    [] ⟨"good", "h", 6⟩ ⟨fun _ => true, true, some 9, true⟩
    rfl (fun _ => rfl) (fun h => by cases h) rfl
    (fun fe h => by cases h)).1

/- ### C7: dynamic-port Add round-trips through the durable store -/

/-- C7: for a successful `Add(id, host, 0)` on a fresh instance with a
durable directory, (1) the persisted projection holds the defaulted host
and the resolved (non-zero) dynamic port — it is written only after both
are fixed; (2) the projection never depends on the server handle; and
(3) a restart — a new instance loading the same durable store, with an
environment in which the recorded port can be re-bound — yields a record
for the id with the same host and that bound, non-zero port. -/
theorem add_dynamic_port_roundtrip (dir host : String) (ctr : Container)
    (env1 env2 : AddEnv) (p : Int)
    (hdir : dir ≠ "") (hport : ctr.statsdPort = 0)
    (hstart1 : env1.startOk = true) (hres1 : env1.resolved = some p)
    (hp : p ≠ 0) (hsave1 : env1.saveOk = true)
    (hstart2 : env2.startOk = true) (hfree2 : env2.portFree p = true)
    (hsave2 : env2.saveOk = true) :
    (addContainer env1 ⟨⟨dir, host, []⟩, [], 0, []⟩ ctr).1.disk
      = [(ctr.id, ⟨ctr.id,
          if ctr.statsdHost = "" then host else ctr.statsdHost, p⟩)]
    ∧ (∀ c : Container, ∀ s' : Option Nat,
        marshalContainer { c with server := s' } = marshalContainer c)
    ∧ ∃ c2, mapLookup (loadContainers
          ⟨⟨dir, host, []⟩, [], 0,
            (addContainer env1 ⟨⟨dir, host, []⟩, [], 0, []⟩ ctr).1.disk⟩
          ((addContainer env1 ⟨⟨dir, host, []⟩, [], 0, []⟩ ctr).1.disk.map
            (fun kv => (DiskFile.good kv.2, env2)))).ds.containers ctr.id
        = some c2
      ∧ c2.statsdHost
          = (if ctr.statsdHost = "" then host else ctr.statsdHost)
      ∧ c2.statsdPort = p ∧ c2.statsdPort ≠ 0 := by
  obtain ⟨c', hok, hid, hhost, hport', hins, hdisk⟩ :=
    addContainer_succeeds env1 ⟨⟨dir, host, []⟩, [], 0, []⟩ ctr hstart1
      (fun h => absurd hport h) (fun _ => by rw [hres1]; rfl) hsave1
  have hmarsh : marshalContainer c'
      = ⟨ctr.id, if ctr.statsdHost = "" then host else ctr.statsdHost, p⟩ := by
    rw [marshalContainer, hid, hhost, hport', hport, hres1]
    simp
  have hdisk' : (addContainer env1 ⟨⟨dir, host, []⟩, [], 0, []⟩ ctr).1.disk
      = [(ctr.id, ⟨ctr.id,
          if ctr.statsdHost = "" then host else ctr.statsdHost, p⟩)] := by
    rw [hdisk hdir, hmarsh]; rfl
  refine ⟨hdisk', fun c s' => rfl, ?_⟩
  rw [hdisk']
  obtain ⟨c2, hok2, hid2, hhost2, hport2, hins2, hdisk2⟩ :=
    addContainer_succeeds env2
      ⟨⟨dir, host, []⟩, [], 0,
        [(ctr.id, ⟨ctr.id,
          if ctr.statsdHost = "" then host else ctr.statsdHost, p⟩)]⟩
      (recToContainer ⟨ctr.id,
        if ctr.statsdHost = "" then host else ctr.statsdHost, p⟩)
      hstart2 (fun _ => hfree2) (fun h => absurd h hp) hsave2
  refine ⟨c2, ?_, ?_, ?_, ?_⟩
  · show mapLookup (addContainer env2 _ _).1.ds.containers ctr.id = some c2
    rw [hins2]
    exact mapLookup_mapInsert_self _ _ _
  · rw [hhost2]
    by_cases hh : ctr.statsdHost = "" <;> by_cases hH : host = "" <;>
      simp [recToContainer, hh, hH]
  · rw [hport2]
    simp [recToContainer, hp]
  · rw [hport2]
    simp [recToContainer, hp]

/-- C7 witness. -/
theorem add_dynamic_port_roundtrip_witness :
    ∃ c2, mapLookup (loadContainers
          ⟨⟨"/d", "H", []⟩, [], 0,
            (addContainer ⟨fun _ => true, true, some 9, true⟩
              ⟨⟨"/d", "H", []⟩, [], 0, []⟩ ⟨"c1", "", 0, none⟩).1.disk⟩
          ((addContainer ⟨fun _ => true, true, some 9, true⟩
              ⟨⟨"/d", "H", []⟩, [], 0, []⟩ ⟨"c1", "", 0, none⟩).1.disk.map
            (fun kv => (DiskFile.good kv.2,
              (⟨fun _ => true, true, some 9, true⟩ : AddEnv))))).ds.containers
        "c1"
      = some c2
    ∧ c2.statsdHost = (if ("" : String) = "" then "H" else "")
    ∧ c2.statsdPort = 9 ∧ c2.statsdPort ≠ 0 :=
  (add_dynamic_port_roundtrip "/d" "H" ⟨"c1", "", 0, none⟩
    ⟨fun _ => true, true, some 9, true⟩ ⟨fun _ => true, true, some 9, true⟩
    9 (by decide) rfl rfl rfl (by decide) rfl rfl rfl rfl).2.2

/- ### C10: GetContainer returns a pointer to a private copy -/

/-- C10: `GetContainer` always returns a valid (non-nil) pointer: it
addresses the freshly allocated cell holding the comma-ok result of the
map lookup — the zero-value record with `found = false` when the id is
absent, a copy of the stored record with `found = true` when present —
and writing any value through that pointer leaves the plugin's own state
(in particular the containers map) unchanged. -/
theorem getContainer_returns_private_copy (w : World) (cid : String) :
    ((getContainer w cid).1.1 < (getContainer w cid).2.heap.length)
    ∧ (mapLookup w.ds.containers cid = none →
        (getContainer w cid).1.2 = false
        ∧ ptrRead (getContainer w cid).2 (getContainer w cid).1.1
            = some zeroContainer)
    ∧ (∀ c, mapLookup w.ds.containers cid = some c →
        (getContainer w cid).1.2 = true
        ∧ ptrRead (getContainer w cid).2 (getContainer w cid).1.1
            = some c)
    ∧ (∀ c', (ptrWrite (getContainer w cid).2 (getContainer w cid).1.1
        c').ds = w.ds) := by
  refine ⟨?_, ?_, ?_, ?_⟩
  · simp [getContainer]
  · intro hnone
    simp [getContainer, ptrRead, hnone, List.getElem?_concat_length]
  · intro c hsome
    simp [getContainer, ptrRead, hsome, List.getElem?_concat_length]
  · intro c'
    rfl

/-- C10 witness: a registry with one record, queried for a present and an
absent id. -/
theorem getContainer_returns_private_copy_witness :
    ((getContainer ⟨⟨"/d", "h0", [("c1", ⟨"c1", "h", 5, some 0⟩)]⟩, []⟩
        "c1").1.2 = true
      ∧ ptrRead (getContainer
          ⟨⟨"/d", "h0", [("c1", ⟨"c1", "h", 5, some 0⟩)]⟩, []⟩ "c1").2
          (getContainer
          ⟨⟨"/d", "h0", [("c1", ⟨"c1", "h", 5, some 0⟩)]⟩, []⟩ "c1").1.1
        = some ⟨"c1", "h", 5, some 0⟩)
    ∧ ((getContainer ⟨⟨"/d", "h0", [("c1", ⟨"c1", "h", 5, some 0⟩)]⟩, []⟩
        "zz").1.2 = false
      ∧ ptrRead (getContainer
          ⟨⟨"/d", "h0", [("c1", ⟨"c1", "h", 5, some 0⟩)]⟩, []⟩ "zz").2
          (getContainer
          ⟨⟨"/d", "h0", [("c1", ⟨"c1", "h", 5, some 0⟩)]⟩, []⟩ "zz").1.1
        = some zeroContainer)
    ∧ (ptrWrite (getContainer
          ⟨⟨"/d", "h0", [("c1", ⟨"c1", "h", 5, some 0⟩)]⟩, []⟩ "c1").2
          (getContainer
          ⟨⟨"/d", "h0", [("c1", ⟨"c1", "h", 5, some 0⟩)]⟩, []⟩ "c1").1.1
          ⟨"c1", "EVIL", 99, none⟩).ds
        = ⟨"/d", "h0", [("c1", ⟨"c1", "h", 5, some 0⟩)]⟩ :=
  ⟨(getContainer_returns_private_copy
      ⟨⟨"/d", "h0", [("c1", ⟨"c1", "h", 5, some 0⟩)]⟩, []⟩ "c1").2.2.1
      ⟨"c1", "h", 5, some 0⟩ rfl,
    (getContainer_returns_private_copy
      ⟨⟨"/d", "h0", [("c1", ⟨"c1", "h", 5, some 0⟩)]⟩, []⟩ "zz").2.1 rfl,
    (getContainer_returns_private_copy
      ⟨⟨"/d", "h0", [("c1", ⟨"c1", "h", 5, some 0⟩)]⟩, []⟩ "c1").2.2.2
      ⟨"c1", "EVIL", 99, none⟩⟩

end DcosStatsd
